import Mathlib

/-!
Verification development for the organiza storefront (cart, checkout,
address book and order-status logic). The definitions below are shallow
embeddings of the TypeScript source: prices are modelled as rationals
(JS numbers restricted to the exact arithmetic actually performed),
quantities as integers, nullable fields as Option, and the nullish
chains (a ?? b, a?.f) are transcribed with Option matches.
-/

namespace Organiza

/-! ## JS string helpers

Transcriptions of the JavaScript string operations used by the cart
search filter: toLowerCase and includes (substring containment). -/

/-- JS String.startsWith on character lists: does the first list start
with the second? -/
def charsStartWith : List Char → List Char → Bool
  | _, [] => true
  | [], _ :: _ => false
  | c :: cs, d :: ds => c == d && charsStartWith cs ds

/-- JS String.includes on character lists: does the first list contain
the second as a contiguous run? -/
def charsContain : List Char → List Char → Bool
  | [], needle => needle.isEmpty
  | c :: cs, needle => charsStartWith (c :: cs) needle || charsContain cs needle

/-- JS String.toLowerCase, modelled character-wise. -/
def jsToLower (s : String) : String :=
  String.mk (s.toList.map Char.toLower)

/-- JS s.includes(pat). -/
def jsIncludes (s pat : String) : Bool :=
  charsContain s.toList pat.toList

/-! ## Data model (src/app/cart/page.tsx, checkout-details-modal)

CartItem mirrors the CartItem interface of the cart page: the joined
products record is nullable (product may have been deleted), and each
of its fields is optional. -/

/-- The nested products record of a cart line (cart page CartItem interface). -/
structure CartProduct where
  product_name : Option String
  discount_price : Option ℚ
  original_price : Option ℚ
  product_photo_urls : Option (List String)
deriving DecidableEq

/-- One cart line as fetched by the cart page (CartItem interface). -/
structure CartItem where
  id : String
  product_id : String
  quantity : ℤ
  price_at_add : ℚ
  products : Option CartProduct
deriving DecidableEq

/-- One line handed to the checkout modal (CheckoutItem interface in
checkout-details-modal). -/
structure CheckoutItem where
  productId : String
  productName : String
  quantity : ℤ
  price_at_add : ℚ
deriving DecidableEq

/-! ## Cart page computations (src/app/cart/page.tsx lines 209-245) -/

/-- The unit price the cart page uses for a line, transcribing
item.products?.discount_price ?? item.products?.original_price ?? item.price_at_add. -/
def cartUnitPrice (item : CartItem) : ℚ :=
  match item.products with
  | none => item.price_at_add
  | some p =>
    match p.discount_price with
    | some d => d
    | none =>
      match p.original_price with
      | some o => o
      | none => item.price_at_add

/-- The cart page search filter predicate, transcribing
item.products?.product_name?.toLowerCase().includes(searchTerm.toLowerCase()). -/
def matchesSearch (item : CartItem) (searchTerm : String) : Bool :=
  match item.products with
  | none => false
  | some p =>
    match p.product_name with
    | none => false
    | some n => jsIncludes (jsToLower n) (jsToLower searchTerm)

/-- filteredCartItems: the cart lines whose product name matches the search term. -/
def filteredCartItems (items : List CartItem) (searchTerm : String) : List CartItem :=
  items.filter (fun item => matchesSearch item searchTerm)

/-- The cart page subtotal: reduce((sum, item) => sum + price * item.quantity, 0)
over the filtered lines, where price is cartUnitPrice. -/
def cartSubtotal (items : List CartItem) : ℚ :=
  items.foldl (fun sum item => sum + cartUnitPrice item * (item.quantity : ℚ)) 0

/-- The cart page shipping fee: subtotal > 0 && subtotal < 1000 ? 99 : 0. -/
def cartShippingFee (items : List CartItem) : ℚ :=
  if 0 < cartSubtotal items ∧ cartSubtotal items < 1000 then 99 else 0

/-- The cart page grand total: subtotal + shippingFee. -/
def cartTotal (items : List CartItem) : ℚ :=
  cartSubtotal items + cartShippingFee items

/-- The product name shown for a line, transcribing
item.products?.product_name || "Unknown Product" (the JS || treats the
empty string as falsy). -/
def cartProductName (item : CartItem) : String :=
  match item.products with
  | none => "Unknown Product"
  | some p =>
    match p.product_name with
    | none => "Unknown Product"
    | some n => if n = "" then "Unknown Product" else n

/-- The items the cart page passes to the checkout modal
(cart page lines 418-427): built from the filtered lines, with the
current effective unit price stored under the name price_at_add. -/
def cartPageCheckoutItems (items : List CartItem) (searchTerm : String) : List CheckoutItem :=
  (filteredCartItems items searchTerm).map (fun item =>
    { productId := item.product_id
      productName := cartProductName item
      quantity := item.quantity
      price_at_add := cartUnitPrice item })

/-! ## Helper lemmas on the fold used by the subtotals -/

theorem foldl_price_eq_add_sum (f : CartItem → ℚ) (items : List CartItem) (acc : ℚ) :
    items.foldl (fun sum item => sum + f item * (item.quantity : ℚ)) acc
      = acc + (items.map (fun item => f item * (item.quantity : ℚ))).sum := by
  induction items generalizing acc with
  | nil => simp
  | cons hd tl ih => simp [List.foldl_cons, ih (acc + f hd * (hd.quantity : ℚ))]; ring

theorem cartSubtotal_eq_sum (items : List CartItem) :
    cartSubtotal items
      = (items.map (fun item => cartUnitPrice item * (item.quantity : ℚ))).sum := by
  have h := foldl_price_eq_add_sum cartUnitPrice items 0
  simpa [cartSubtotal] using h

theorem cartSubtotal_nonneg (items : List CartItem)
    (h : ∀ item ∈ items, 0 ≤ cartUnitPrice item ∧ 0 ≤ item.quantity) :
    0 ≤ cartSubtotal items := by
  rw [cartSubtotal_eq_sum]
  apply List.sum_nonneg
  intro x hx
  rw [List.mem_map] at hx
  obtain ⟨item, hmem, rfl⟩ := hx
  have ⟨hp, hq⟩ := h item hmem
  have hq2 : (0 : ℚ) ≤ (item.quantity : ℚ) := by exact_mod_cast hq
  exact mul_nonneg hp hq2

/-- Claim C1: for every cart (with nonnegative unit prices and
quantities, as the catalog guarantees), the grand total equals subtotal
plus shipping fee, and the shipping fee is 0 when the subtotal is 0 or
at least 1000, and 99 otherwise. -/
theorem cart_total_and_shipping_fee_correct (items : List CartItem)
    (h : ∀ item ∈ items, 0 ≤ cartUnitPrice item ∧ 0 ≤ item.quantity) :
    cartTotal items = cartSubtotal items + cartShippingFee items ∧
    cartShippingFee items =
      (if cartSubtotal items = 0 ∨ 1000 ≤ cartSubtotal items then 0 else 99) := by
  constructor
  · rfl
  · have hnn := cartSubtotal_nonneg items h
    unfold cartShippingFee
    split_ifs with h1 h2 h2
    · rcases h2 with h2 | h2
      · exact absurd h2 (ne_of_gt h1.1)
      · exact absurd h2 (not_le.mpr h1.2)
    · rfl
    · rfl
    · exfalso
      apply h1
      push_neg at h2
      constructor
      · exact lt_of_le_of_ne hnn (Ne.symm h2.1)
      · exact h2.2

/-- Concrete instance of claim C1: one line at unit price 200, quantity 1,
no product join — subtotal 200, shipping fee 99. -/
theorem cart_total_and_shipping_fee_correct_witness :
    cartShippingFee [⟨"l1", "p1", 1, 200, none⟩] =
      (if cartSubtotal [⟨"l1", "p1", 1, 200, none⟩] = 0 ∨
          1000 ≤ cartSubtotal [⟨"l1", "p1", 1, 200, none⟩] then 0 else 99) :=
  (cart_total_and_shipping_fee_correct [⟨"l1", "p1", 1, 200, none⟩] (by decide)).2

/-! ## Price-at-add versus current catalog price (claims C2, C3) -/

/-- The cart subtotal as the specification describes it: every line
priced at its frozen price-at-add. Stated from the spec's words, for
comparison with cartSubtotal (which is transcribed from the source). -/
def specCartSubtotal (items : List CartItem) : ℚ :=
  (items.map (fun item => item.price_at_add * (item.quantity : ℚ))).sum

/-- A cart line whose product is still in the catalog with a current
discount price (150) different from its frozen price-at-add (100). -/
def staleLine : CartItem :=
  { id := "l1"
    product_id := "p1"
    quantity := 1
    price_at_add := 100
    products := some { product_name := some "x"
                       discount_price := some 150
                       original_price := some 120
                       product_photo_urls := none } }

/-- Claim C2 is false as stated: for the cart [staleLine], the cart
page subtotal (150) and the checkout line price it forwards (150) are
re-derived from the current catalog price, not the frozen
price-at-add (100). -/
theorem subtotal_uses_price_at_add_refuted :
    cartSubtotal [staleLine] ≠ specCartSubtotal [staleLine] ∧
    (cartPageCheckoutItems [staleLine] "").map (fun ci => ci.price_at_add)
      ≠ [staleLine.price_at_add] := by
  constructor
  · simp [cartSubtotal, specCartSubtotal, cartUnitPrice, staleLine]
  · simp [cartPageCheckoutItems, filteredCartItems, matchesSearch, staleLine,
      jsIncludes, jsToLower, charsContain, charsStartWith, cartUnitPrice]

/-- Claim C2 amended: the unit price used for the cart subtotal and
for the checkout line items is the current catalog price (discount
price if the product row carries one, else its original price); the
frozen price-at-add is used only as a fallback when the product row is
absent (or carries no price at all). -/
theorem subtotal_uses_current_catalog_price :
    (∀ (items : List CartItem),
      cartSubtotal items
        = (items.map (fun item => cartUnitPrice item * (item.quantity : ℚ))).sum) ∧
    (∀ (items : List CartItem) (term : String),
      (cartPageCheckoutItems items term).map (fun ci => ci.price_at_add)
        = (filteredCartItems items term).map cartUnitPrice) ∧
    (∀ item : CartItem, item.products = none → cartUnitPrice item = item.price_at_add) := by
  refine ⟨cartSubtotal_eq_sum, ?_, ?_⟩
  · intro items term
    simp [cartPageCheckoutItems]
  · intro item hnone
    simp [cartUnitPrice, hnone]

/-- Concrete instance of the amended claim C2: a line whose product row
is gone is priced at its frozen price-at-add. -/
theorem subtotal_uses_current_catalog_price_witness :
    cartUnitPrice ⟨"l2", "p2", 3, 250, none⟩
      = CartItem.price_at_add ⟨"l2", "p2", 3, 250, none⟩ :=
  subtotal_uses_current_catalog_price.2.2 ⟨"l2", "p2", 3, 250, none⟩ rfl

/-! ## Product page pricing (src/app/product/[id]/page.tsx line 136) -/

/-- The product record received by the product details page
(ProductDetailsProps.product). -/
structure ProductProps where
  id : String
  productName : String
  productDescription : String
  originalPrice : ℚ
  discountPrice : Option ℚ
  productPhotoUrls : Option (List String)
  productVideoUrl : Option String
deriving DecidableEq

/-- displayPrice, transcribing product.discountPrice ?? product.originalPrice. -/
def displayPrice (product : ProductProps) : ℚ :=
  match product.discountPrice with
  | some d => d
  | none => product.originalPrice

/-- The effective unit price as the specification describes it: the
discount price when present AND lower than the original, else the
original price. Stated from the spec's words, for comparison with
displayPrice (which is transcribed from the source). -/
def specEffectiveUnitPrice (product : ProductProps) : ℚ :=
  match product.discountPrice with
  | some d => if d < product.originalPrice then d else product.originalPrice
  | none => product.originalPrice

/-- A product whose discount price (200) exceeds its original price (100). -/
def overpricedDiscount : ProductProps :=
  { id := "p9"
    productName := "x"
    productDescription := ""
    originalPrice := 100
    discountPrice := some 200
    productPhotoUrls := none
    productVideoUrl := none }

/-- Claim C3 is false as stated: for a product whose discount price is
higher than its original price, the code charges the discount price
(200) while the spec's rule yields the original price (100). -/
theorem effective_price_spec_refuted :
    displayPrice overpricedDiscount ≠ specEffectiveUnitPrice overpricedDiscount := by
  simp [displayPrice, specEffectiveUnitPrice, overpricedDiscount]
  norm_num

/-- Claim C3 amended: the effective unit price equals the discount
price whenever one is present — with no check that it is lower than
the original — and the original price otherwise; it coincides with the
spec's rule exactly when the discount, if present, is at most the
original price. -/
theorem effective_price_uses_discount_when_present (product : ProductProps) :
    (∀ d : ℚ, product.discountPrice = some d → displayPrice product = d) ∧
    (product.discountPrice = none → displayPrice product = product.originalPrice) ∧
    (∀ d : ℚ, product.discountPrice = some d → d ≤ product.originalPrice →
      displayPrice product = specEffectiveUnitPrice product) := by
  refine ⟨?_, ?_, ?_⟩
  · intro d hd
    simp [displayPrice, hd]
  · intro hd
    simp [displayPrice, hd]
  · intro d hd hle
    rcases lt_or_eq_of_le hle with hlt | heq
    · simp [displayPrice, specEffectiveUnitPrice, hd, hlt]
    · simp [displayPrice, specEffectiveUnitPrice, hd, heq]

/-- Concrete instance of the amended claim C3: a discount price of 80
against an original price of 100 is charged as 80 and agrees with the
spec's rule. -/
theorem effective_price_uses_discount_when_present_witness :
    displayPrice ⟨"p1", "n", "", 100, some 80, none, none⟩
      = specEffectiveUnitPrice ⟨"p1", "n", "", 100, some 80, none, none⟩ :=
  (effective_price_uses_discount_when_present ⟨"p1", "n", "", 100, some 80, none, none⟩).2.2
    80 rfl (by norm_num)

/-! ## Order status tracker (src/app/company/dashboard/page.tsx)

The dashboard's UpdateStatusModal offers exactly the timeline steps
whose index in statusOrder is strictly greater than the index of the
order's current status; clicking one runs handleStatusUpdate, which
writes the chosen status. advance composes the two: a target that is
offered succeeds, any other target is an invalid transition. -/

/-- statusOrder (dashboard line 881): the ordered stage list. -/
def statusOrder : List String :=
  ["confirmed", "payment_accepted", "preparing", "shipped", "delivered"]

/-- The statuses of proTimelineSteps (dashboard lines 874-880). -/
def proTimelineStatuses : List String :=
  ["confirmed", "payment_accepted", "preparing", "shipped", "delivered"]

/-- JS Array.indexOf: first index of the element, or -1 when absent. -/
def listIndexOf : List String → String → ℤ
  | [], _ => -1
  | x :: xs, s =>
    if x = s then 0
    else
      let r := listIndexOf xs s
      if r = -1 then -1 else r + 1

/-- availableSteps (dashboard line 896): the timeline statuses strictly
after the current one. -/
def availableSteps (currentStatus : String) : List String :=
  proTimelineStatuses.filter
    (fun step => decide (listIndexOf statusOrder currentStatus < listIndexOf statusOrder step))

/-- The only failure mode of a status advance. -/
inductive TransitionError where
  | invalidTransition
deriving DecidableEq

/-- advance: the modal offers targetStatus only when it is an available
step; choosing an offered step persists it (handleStatusUpdate), any
other target is rejected. -/
def advance (currentStatus targetStatus : String) : Except TransitionError String :=
  if targetStatus ∈ availableSteps currentStatus then .ok targetStatus
  else .error .invalidTransition

theorem mem_availableSteps (cur tgt : String) :
    tgt ∈ availableSteps cur ↔
      tgt ∈ proTimelineStatuses ∧
        listIndexOf statusOrder cur < listIndexOf statusOrder tgt := by
  unfold availableSteps
  rw [List.mem_filter]
  simp

/-- Claim C4: for every order status and target in the ordered stage
list, advance succeeds (returning the target) exactly when the target's
index is strictly greater than the current status's index, and fails
with invalidTransition otherwise; in particular a shipped order cannot
be advanced to preparing but can be advanced to delivered. -/
theorem advance_strictly_forward :
    (∀ cur tgt : String, tgt ∈ statusOrder →
      (advance cur tgt = .ok tgt ↔
        listIndexOf statusOrder cur < listIndexOf statusOrder tgt) ∧
      (advance cur tgt = .error .invalidTransition ↔
        ¬ listIndexOf statusOrder cur < listIndexOf statusOrder tgt)) ∧
    advance "shipped" "preparing" = .error .invalidTransition ∧
    advance "shipped" "delivered" = .ok "delivered" := by
  refine ⟨?_, by rfl, by rfl⟩
  intro cur tgt hmem
  have hmem2 : tgt ∈ proTimelineStatuses := hmem
  unfold advance
  by_cases hlt : listIndexOf statusOrder cur < listIndexOf statusOrder tgt
  · have hin : tgt ∈ availableSteps cur := (mem_availableSteps cur tgt).mpr ⟨hmem2, hlt⟩
    rw [if_pos hin]
    constructor
    · exact ⟨fun _ => hlt, fun _ => rfl⟩
    · constructor
      · intro h
        exact absurd h (by simp)
      · intro h
        exact absurd hlt h
  · have hout : tgt ∉ availableSteps cur := by
      intro hin
      exact hlt ((mem_availableSteps cur tgt).mp hin).2
    rw [if_neg hout]
    constructor
    · constructor
      · intro h
        exact absurd h (by simp)
      · intro h
        exact absurd h hlt
    · exact ⟨fun _ => hlt, fun _ => rfl⟩

/-- Concrete instances of claim C4: a confirmed order can be advanced
to shipped, and a preparing order cannot be re-confirmed. -/
theorem advance_strictly_forward_witness :
    advance "confirmed" "shipped" = Except.ok "shipped" ∧
    advance "preparing" "confirmed" = Except.error TransitionError.invalidTransition :=
  ⟨(advance_strictly_forward.1 "confirmed" "shipped" (by decide)).1.mpr (by decide),
   (advance_strictly_forward.1 "preparing" "confirmed" (by decide)).2.mpr (by decide)⟩

/-! ## Address book (src/app/product/[id]/page.tsx, handleAddOrUpdateAddress)

Addresses live as a list embedded in the user profile; an upsert
rewrites the whole list. -/

/-- One address of the user's address book (Address interface). -/
structure Address where
  id : String
  name : String
  houseNumber : String
  street : String
  area : String
  city : String
  state : String
  pincode : String
  country : String
  primaryPhone : String
  secondaryPhone : Option String
  isDefault : Bool
  lat : Option ℚ
  lng : Option ℚ
deriving DecidableEq

/-- Clearing every default flag, transcribing
updatedAddresses.map((addr) => ({ ...addr, isDefault: false })). -/
def clearDefaults (addresses : List Address) : List Address :=
  addresses.map (fun a => { a with isDefault := false })

/-- handleAddOrUpdateAddress (product page lines 1411-1467): when the
incoming address is default, every existing default is cleared first;
then the address replaces the entry with its id (editing) or is
appended (adding). -/
def handleAddOrUpdateAddress (addresses : List Address) (editing : Bool)
    (newAddress : Address) : List Address :=
  let cleared := if newAddress.isDefault then clearDefaults addresses else addresses
  if editing then
    cleared.map (fun a => if a.id = newAddress.id then newAddress else a)
  else
    cleared ++ [newAddress]

/-- How many addresses of the list carry the given id. -/
def countId (addresses : List Address) (i : String) : ℕ :=
  (addresses.filter (fun a => a.id == i)).length

/-- How many addresses of the list are flagged default. -/
def countDefaults (addresses : List Address) : ℕ :=
  (addresses.filter (fun a => a.isDefault)).length

theorem countDefaults_clearDefaults (addresses : List Address) :
    countDefaults (clearDefaults addresses) = 0 := by
  induction addresses with
  | nil => rfl
  | cons hd tl ih => simp [countDefaults, clearDefaults, List.filter_cons]

theorem clearDefaults_all_false (addresses : List Address) :
    ∀ a ∈ clearDefaults addresses, a.isDefault = false := by
  intro a ha
  rw [clearDefaults, List.mem_map] at ha
  obtain ⟨b, _, rfl⟩ := ha
  rfl

theorem countId_clearDefaults (addresses : List Address) (i : String) :
    countId (clearDefaults addresses) i = countId addresses i := by
  induction addresses with
  | nil => rfl
  | cons hd tl ih =>
    by_cases hid : hd.id = i
    · simp [countId, clearDefaults, List.filter_cons, hid] at ih ⊢
      exact ih
    · simp [countId, clearDefaults, List.filter_cons, hid] at ih ⊢
      exact ih

theorem countDefaults_replace_all_false (bs : List Address) (na : Address)
    (hd : na.isDefault = true) (hb : ∀ b ∈ bs, b.isDefault = false) :
    countDefaults (bs.map (fun a => if a.id = na.id then na else a))
      = countId bs na.id := by
  induction bs with
  | nil => rfl
  | cons b tl ih =>
    have hbtl : ∀ x ∈ tl, x.isDefault = false := fun x hx => hb x (List.mem_cons_of_mem b hx)
    have hbhd : b.isDefault = false := hb b (List.mem_cons_self b tl)
    by_cases hid : b.id = na.id
    · simp [countDefaults, countId, List.filter_cons, hid, hd,
        ih hbtl] at ih hbtl ⊢
      simpa [countDefaults, countId] using ih hbtl
    · simp only [List.map_cons, countDefaults, countId, List.filter_cons, if_neg hid]
      simp [hbhd, hid]
      simpa [countDefaults, countId] using ih hbtl

/-- Claim C5: after an upsert of an address flagged default — an append,
or an edit of an id the list holds exactly once — exactly one address of
the resulting list is flagged default. -/
theorem upsert_default_unique (addresses : List Address) (editing : Bool)
    (newAddress : Address) (hdef : newAddress.isDefault = true)
    (hedit : editing = true → countId addresses newAddress.id = 1) :
    countDefaults (handleAddOrUpdateAddress addresses editing newAddress) = 1 := by
  unfold handleAddOrUpdateAddress
  cases editing with
  | true =>
    simp only [hdef, if_true, if_pos rfl]
    rw [countDefaults_replace_all_false (clearDefaults addresses) newAddress hdef
      (clearDefaults_all_false addresses)]
    rw [countId_clearDefaults]
    exact hedit rfl
  | false =>
    simp only [hdef, if_true, Bool.false_eq_true, if_false]
    have h0 := countDefaults_clearDefaults addresses
    simp only [countDefaults, List.filter_append] at h0 ⊢
    simp [List.filter_cons, hdef, List.length_eq_zero.mp h0]

/-- Concrete instance of claim C5: editing the sole address of a
one-address book into a default address leaves exactly one default. -/
theorem upsert_default_unique_witness :
    countDefaults
      (handleAddOrUpdateAddress
        [⟨"a1", "home", "1", "s", "ar", "c", "st", "400001", "India", "9", none,
          false, none, none⟩]
        true
        ⟨"a1", "home", "2", "s2", "ar", "c", "st", "400001", "India", "9", none,
          true, none, none⟩) = 1 :=
  upsert_default_unique _ true _ rfl (fun _ => rfl)

/-! ## Cart mutations on the cart_items table

DbCartLine models one row of the cart_items table. handleAddToCart
(product page lines 320-371) first looks the (user, product) pair up
and rejects a duplicate with the "Already in cart" notice; otherwise it
inserts a fresh row priced at displayPrice. handleQuantityChange (cart
page lines 142-175) refuses a quantity below 1 by returning before any
write; otherwise it updates the matching row's quantity. -/

/-- One row of the cart_items table. -/
structure DbCartLine where
  id : String
  user_id : String
  product_id : String
  quantity : ℤ
  price_at_add : ℚ
deriving DecidableEq

/-- handleAddToCart: a duplicate (user, product) line yields the
already-in-cart notice and leaves the table untouched; otherwise the
row is inserted with the page's quantity and displayPrice. -/
def handleAddToCart (table : List DbCartLine) (userId : String)
    (product : ProductProps) (quantity : ℤ) (newId : String) :
    List DbCartLine × Option String :=
  if table.any (fun l => l.user_id == userId && l.product_id == product.id) then
    (table, some "Already in cart")
  else
    (table ++ [{ id := newId, user_id := userId, product_id := product.id,
                 quantity := quantity, price_at_add := displayPrice product }], none)

/-- Claim C6: when a cart line for the (user, product) pair already
exists, handleAddToCart surfaces the already-in-cart notice, inserts no
new line, and leaves every existing line — in particular its
quantity — unchanged. -/
theorem add_item_already_in_cart (table : List DbCartLine) (userId : String)
    (product : ProductProps) (quantity : ℤ) (newId : String)
    (h : ∃ l ∈ table, l.user_id = userId ∧ l.product_id = product.id) :
    (handleAddToCart table userId product quantity newId).1 = table ∧
    (handleAddToCart table userId product quantity newId).2 = some "Already in cart" ∧
    (handleAddToCart table userId product quantity newId).1.length = table.length := by
  have hany : table.any (fun l => l.user_id == userId && l.product_id == product.id) = true := by
    rw [List.any_eq_true]
    obtain ⟨l, hmem, hu, hp⟩ := h
    exact ⟨l, hmem, by simp [hu, hp]⟩
  unfold handleAddToCart
  rw [if_pos hany]
  exact ⟨rfl, rfl, rfl⟩

/-- Concrete instance of claim C6: re-adding product p1 for user u1
whose cart already holds it (quantity 2) is rejected and the row keeps
quantity 2. -/
theorem add_item_already_in_cart_witness :
    (handleAddToCart [⟨"l1", "u1", "p1", 2, 50⟩] "u1"
        ⟨"p1", "n", "", 50, none, none, none⟩ 1 "l2").1
      = [⟨"l1", "u1", "p1", 2, 50⟩] ∧
    (handleAddToCart [⟨"l1", "u1", "p1", 2, 50⟩] "u1"
        ⟨"p1", "n", "", 50, none, none, none⟩ 1 "l2").2
      = some "Already in cart" :=
  ⟨(add_item_already_in_cart _ _ _ 1 "l2"
      ⟨⟨"l1", "u1", "p1", 2, 50⟩, by simp, rfl, rfl⟩).1,
   (add_item_already_in_cart _ _ _ 1 "l2"
      ⟨⟨"l1", "u1", "p1", 2, 50⟩, by simp, rfl, rfl⟩).2.1⟩

/-- The two control paths of handleQuantityChange: the guard return for
a quantity below 1, or the performed update. -/
inductive SetQuantityOutcome where
  | rejectedInvalidQuantity
  | updated
deriving DecidableEq

/-- handleQuantityChange: if (newQuantity < 1) return — no write; else
the row with the given id gets the new quantity (the optimistic update
maps over the list replacing only the quantity field). -/
def handleQuantityChange (table : List DbCartLine) (itemId : String)
    (newQuantity : ℤ) : List DbCartLine × SetQuantityOutcome :=
  if newQuantity < 1 then
    (table, .rejectedInvalidQuantity)
  else
    (table.map (fun l => if l.id = itemId then { l with quantity := newQuantity } else l),
     .updated)

/-- Claim C8: a new quantity below 1 is rejected and the table is left
unchanged; otherwise the matching line's quantity is replaced while its
id, price-at-add and every other line stay untouched. -/
theorem set_quantity_spec (table : List DbCartLine) (itemId : String)
    (newQuantity : ℤ) :
    (newQuantity < 1 →
      handleQuantityChange table itemId newQuantity = (table, .rejectedInvalidQuantity)) ∧
    (1 ≤ newQuantity →
      (handleQuantityChange table itemId newQuantity).2 = .updated ∧
      List.Forall₂
        (fun l l' => l'.id = l.id ∧ l'.price_at_add = l.price_at_add ∧
          l'.quantity = (if l.id = itemId then newQuantity else l.quantity))
        table (handleQuantityChange table itemId newQuantity).1) := by
  constructor
  · intro hlt
    unfold handleQuantityChange
    rw [if_pos hlt]
  · intro hge
    have hnlt : ¬ newQuantity < 1 := not_lt.mpr hge
    unfold handleQuantityChange
    rw [if_neg hnlt]
    refine ⟨rfl, ?_⟩
    induction table with
    | nil => exact List.Forall₂.nil
    | cons hd tl ih =>
      refine List.Forall₂.cons ?_ ih
      by_cases hid : hd.id = itemId
      · refine ⟨?_, ?_, ?_⟩ <;> simp [hid]
      · refine ⟨?_, ?_, ?_⟩ <;> simp [hid]

/-- Concrete instances of claim C8: quantity 0 is rejected leaving the
row at quantity 2; quantity 5 is applied. -/
theorem set_quantity_spec_witness :
    handleQuantityChange [⟨"l1", "u1", "p1", 2, 50⟩] "l1" 0
      = ([⟨"l1", "u1", "p1", 2, 50⟩], SetQuantityOutcome.rejectedInvalidQuantity) ∧
    (handleQuantityChange [⟨"l1", "u1", "p1", 2, 50⟩] "l1" 5).2
      = SetQuantityOutcome.updated :=
  ⟨(set_quantity_spec [⟨"l1", "u1", "p1", 2, 50⟩] "l1" 0).1 (by norm_num),
   ((set_quantity_spec [⟨"l1", "u1", "p1", 2, 50⟩] "l1" 5).2 (by norm_num)).1⟩

/-! ## Checkout modal totals and order persistence (checkout-details-modal)

The modal receives CheckoutItem lines, totals them at their
price_at_add (lines 75-78), and on payment success persists an order
whose order_items snapshot each line as price_at_purchase (lines
260-292). Fresh uuids are modelled by an opaque generator. -/

/-- The modal subtotal: items.reduce((sum, item) => sum + item.price_at_add * item.quantity, 0). -/
def checkoutSubtotal (items : List CheckoutItem) : ℚ :=
  items.foldl (fun sum item => sum + item.price_at_add * (item.quantity : ℚ)) 0

/-- The modal shipping fee: subtotal > 0 && subtotal < 1000 ? 99 : 0. -/
def checkoutShippingFee (items : List CheckoutItem) : ℚ :=
  if 0 < checkoutSubtotal items ∧ checkoutSubtotal items < 1000 then 99 else 0

/-- The modal grand total: subtotal + shippingFee. -/
def checkoutTotalAmount (items : List CheckoutItem) : ℚ :=
  checkoutSubtotal items + checkoutShippingFee items

/-- One element of the order_items array persisted with the order. -/
structure OrderItemData where
  id : String
  product_id : String
  quantity : ℤ
  price_at_purchase : ℚ
  created_at : String
deriving DecidableEq

/-- The success payload the payment gateway hands back. -/
structure RazorpayResponse where
  razorpay_payment_id : Option String
  razorpay_order_id : Option String
  razorpay_signature : Option String
deriving DecidableEq

/-- JS x || null on a nullable string: null and the empty string both
collapse to null. -/
def jsOrNull (x : Option String) : Option String :=
  match x with
  | some s => if s = "" then none else some s
  | none => none

/-- JS x || fallback on a nullable string. -/
def jsOrElse (x : Option String) (fallback : String) : String :=
  match x with
  | some s => if s = "" then fallback else s
  | none => fallback

/-- orderItemsData (modal lines 260-266): each checkout line becomes an
order item with a fresh uuid, the line's quantity, and the line's
price_at_add stored as price_at_purchase. -/
def orderItemsFrom (uuid : ℕ → String) (now : String) :
    List CheckoutItem → ℕ → List OrderItemData
  | [], _ => []
  | item :: rest, n =>
    { id := uuid n
      product_id := item.productId
      quantity := item.quantity
      price_at_purchase := item.price_at_add
      created_at := now } :: orderItemsFrom uuid now rest (n + 1)

/-- The embedded geolocation of the shipping snapshot. -/
structure OrderLocation where
  lat : Option ℚ
  lng : Option ℚ
deriving DecidableEq

/-- One row of the orders table, as built by handlePaymentSuccess
(modal lines 269-289). -/
structure OrderData where
  user_id : String
  total_amount : ℚ
  payment_id : Option String
  order_id : String
  signature : Option String
  status : String
  purchase_time : String
  customer_name : String
  primary_phone : String
  secondary_phone : Option String
  country : String
  state : String
  city : String
  pincode : String
  area : String
  street : String
  house_number : String
  location : OrderLocation
  order_items : List OrderItemData
deriving DecidableEq

/-- The orderData literal of handlePaymentSuccess: the denormalized
shipping snapshot, the modal's totalAmount, and the order_items array. -/
def buildOrderData (uuid : ℕ → String) (now : String) (userId : String)
    (response : RazorpayResponse) (tempOrderId : String)
    (userName primaryPhone : String) (secondaryPhone : Option String)
    (shippingAddress : Address) (items : List CheckoutItem) : OrderData :=
  { user_id := userId
    total_amount := checkoutTotalAmount items
    payment_id := jsOrNull response.razorpay_payment_id
    order_id := jsOrElse response.razorpay_order_id tempOrderId
    signature := jsOrNull response.razorpay_signature
    status := "confirmed"
    purchase_time := now
    customer_name := userName
    primary_phone := primaryPhone
    secondary_phone := secondaryPhone
    country := shippingAddress.country
    state := shippingAddress.state
    city := shippingAddress.city
    pincode := shippingAddress.pincode
    area := shippingAddress.area
    street := shippingAddress.street
    house_number := shippingAddress.houseNumber
    location := { lat := shippingAddress.lat, lng := shippingAddress.lng }
    order_items := orderItemsFrom uuid now items 0 }

/-- Reconstructing a total from stored order items: the sum of
price-at-purchase times quantity. -/
def orderItemsTotal (orderItems : List OrderItemData) : ℚ :=
  (orderItems.map (fun oi => oi.price_at_purchase * (oi.quantity : ℚ))).sum

theorem foldl_add_sum {α : Type} (f : α → ℚ) (l : List α) (acc : ℚ) :
    l.foldl (fun s a => s + f a) acc = acc + (l.map f).sum := by
  induction l generalizing acc with
  | nil => simp
  | cons hd tl ih => simp [List.foldl_cons, ih (acc + f hd)]; ring

theorem checkoutSubtotal_eq_sum (items : List CheckoutItem) :
    checkoutSubtotal items
      = (items.map (fun item => item.price_at_add * (item.quantity : ℚ))).sum := by
  have h := foldl_add_sum (fun item : CheckoutItem => item.price_at_add * (item.quantity : ℚ))
    items 0
  simpa [checkoutSubtotal] using h

theorem orderItemsTotal_orderItemsFrom (uuid : ℕ → String) (now : String)
    (items : List CheckoutItem) (n : ℕ) :
    orderItemsTotal (orderItemsFrom uuid now items n) = checkoutSubtotal items := by
  rw [checkoutSubtotal_eq_sum]
  induction items generalizing n with
  | nil => rfl
  | cons hd tl ih =>
    simp only [orderItemsFrom, orderItemsTotal, List.map_cons, List.sum_cons] at ih ⊢
    rw [ih (n + 1)]

/-- Claim C7: for every order persisted at checkout, the sum over its
stored order items of price-at-purchase times quantity equals the
stored total amount minus the shipping fee charged at checkout time. -/
theorem order_items_total_roundtrip (uuid : ℕ → String) (now : String)
    (userId : String) (response : RazorpayResponse) (tempOrderId : String)
    (userName primaryPhone : String) (secondaryPhone : Option String)
    (shippingAddress : Address) (items : List CheckoutItem) :
    orderItemsTotal
        (buildOrderData uuid now userId response tempOrderId userName primaryPhone
          secondaryPhone shippingAddress items).order_items
      = (buildOrderData uuid now userId response tempOrderId userName primaryPhone
          secondaryPhone shippingAddress items).total_amount
        - checkoutShippingFee items := by
  show orderItemsTotal (orderItemsFrom uuid now items 0)
    = checkoutTotalAmount items - checkoutShippingFee items
  rw [orderItemsTotal_orderItemsFrom, checkoutTotalAmount]
  ring

/-! ## Payment failure (checkout-details-modal lines 318-326)

handlePaymentFailure only surfaces a toast and closes the payment
widget; it performs no table write, so the orders table and the cart
are exactly as before. -/

/-- The failure payload the payment gateway hands back. -/
structure PaymentError where
  description : Option String
deriving DecidableEq

/-- The surfaced toast text, transcribing
Payment failed: err.description or the Unknown-error fallback
(the JS || treats the empty string as falsy). -/
def paymentFailureMessage (err : PaymentError) : String :=
  "Payment failed: " ++ jsOrElse err.description "Unknown error"

/-- The state a checkout attempt can observe: the persisted orders, the
user's cart rows, the notices shown so far, and whether the payment
widget is open. -/
structure CheckoutPageState where
  orders : List OrderData
  cart_items : List DbCartLine
  notices : List String
  showRazorpay : Bool
deriving DecidableEq

/-- handlePaymentFailure: toast the failure reason and close the
payment widget; nothing else changes. -/
def handlePaymentFailure (err : PaymentError) (s : CheckoutPageState) :
    CheckoutPageState :=
  { s with
    notices := s.notices ++ [paymentFailureMessage err]
    showRazorpay := false }

/-- Claim C9: on payment failure no order record is created and the
cart rows are untouched; the failure reason is appended to the surfaced
notices. -/
theorem payment_failure_frame (err : PaymentError) (s : CheckoutPageState) :
    (handlePaymentFailure err s).orders = s.orders ∧
    (handlePaymentFailure err s).cart_items = s.cart_items ∧
    (handlePaymentFailure err s).notices = s.notices ++ [paymentFailureMessage err] :=
  ⟨rfl, rfl, rfl⟩

/-! ## Order placement under an active search filter (claim C10)

The cart page hands the checkout modal only the filtered lines
(cartPageCheckoutItems), while handleOrderSuccess (cart page lines
234-245) deletes every cart_items row of the user. -/

/-- handleOrderSuccess's cart clear: delete().eq("user_id", userId)
removes every row of the user from the cart_items table. -/
def handleOrderSuccessClear (rows : List DbCartLine) (userId : String) :
    List DbCartLine :=
  rows.filter (fun l => !(l.user_id == userId))

/-- A cart line whose product name matches the search term app. -/
def appleLine : CartItem :=
  { id := "l1", product_id := "pa", quantity := 1, price_at_add := 100
    products := some { product_name := some "Apple Basket", discount_price := none
                       original_price := some 100, product_photo_urls := none } }

/-- A cart line whose product name does not match the search term app. -/
def bananaLine : CartItem :=
  { id := "l2", product_id := "pb", quantity := 2, price_at_add := 200
    products := some { product_name := some "Banana", discount_price := none
                       original_price := some 200, product_photo_urls := none } }

/-- The cart_items rows behind the two lines, owned by user u1. -/
def appleRow : DbCartLine := ⟨"l1", "u1", "pa", 1, 100⟩

def bananaRow : DbCartLine := ⟨"l2", "u1", "pb", 2, 200⟩

/-- Claim C10: with search term app active over the cart
[appleLine, bananaLine], the checkout receives — and the persisted
order therefore snapshots — only the apple line, yet the subsequent
clear deletes both of the user's rows: the banana line is deleted
without ever appearing among the order's items. -/
theorem filtered_checkout_clears_unmatched :
    (cartPageCheckoutItems [appleLine, bananaLine] "app").map
        (fun ci => ci.productId) = ["pa"] ∧
    (orderItemsFrom (fun _ => "oid") "t"
        (cartPageCheckoutItems [appleLine, bananaLine] "app") 0).map
        (fun oi => oi.product_id) = ["pa"] ∧
    handleOrderSuccessClear [appleRow, bananaRow] "u1" = [] ∧
    bananaRow.product_id ∉
      (orderItemsFrom (fun _ => "oid") "t"
        (cartPageCheckoutItems [appleLine, bananaLine] "app") 0).map
        (fun oi => oi.product_id) := by
  refine ⟨?_, ?_, ?_, ?_⟩ <;> decide

end Organiza
